import Mathlib

/-!
Shallow embedding of the xxsynth MIDI-over-loopback bridge.

The definitions below are translated from the Rust sources:
  * `src/xxsynth-app/src/audio.rs` — engine-side listener, channel mapping,
    engine lifecycle handle (`AudioEngineHandle::stop`, `spawn_audio_thread`);
  * `src/xxsynth-winmm/src/lib.rs` — driver-side emitter (`modMessage`).

Bytes are modelled as `Nat` (with explicit `% 256` where the source performs
`as u8` truncation); `u32` arithmetic never approaches `2^32` in the modelled
expressions (`port_index * 16 + channel ≤ 255*16+15`), so plain `Nat`
arithmetic is faithful.  The `f32` load-progress scalar is modelled over `ℚ`:
every value the source writes is a short decimal literal or a ratio of small
integers, and the properties claimed about it are the exact-arithmetic ones.
-/

namespace XXSynth

/-- Channel audio events forwarded to the synth, as used in `audio.rs`
(`ChannelAudioEvent::NoteOn { key, vel }` / `ChannelAudioEvent::NoteOff { key }`). -/
inductive ChannelAudioEvent where
  | NoteOn (key : Nat) (vel : Nat)
  | NoteOff (key : Nat)
deriving DecidableEq, Repr

/-- The fields of `RealtimeConfig` consumed by `spawn_audio_thread` in
`audio.rs` (`config.udp_port`, `config.total_channels`,
`config.ignore_velocity_min`, `config.ignore_velocity_max`). -/
structure RealtimeConfig where
  udp_port : Nat
  total_channels : Nat
  ignore_velocity_min : Nat
  ignore_velocity_max : Nat
deriving DecidableEq, Repr

/-! ### Packet codec -/

/-- Decoding of a received datagram, from the listener loop of `audio.rs`:
`if size == 4 { let port_index = buf[0]; ... }` — a datagram is acted on
exactly when its size is 4, yielding the four bytes in order; any other
size falls through with no effect. -/
def decode (buf : List Nat) : Option (Nat × Nat × Nat × Nat) :=
  match buf with
  | [a, b, c, d] => some (a, b, c, d)
  | _ => none

/-- Encoding on the driver side, from `modMessage`'s `MODM_DATA` arm in
`lib.rs`: `let packet = [u_device_id as u8, status, data1, data2]` where
`status`, `data1`, `data2` are single bytes extracted from the message
DWORD.  `% 256` models the `as u8` truncations. -/
def encode (port status data1 data2 : Nat) : List Nat :=
  [port % 256, status % 256, data1 % 256, data2 % 256]

/-! ### Channel mapper -/

/-- The flat target channel computed by the listener:
`(port_index as u32 * 16) + (status_byte & 0x0F) as u32`. -/
def target_channel (port_index status_byte : Nat) : Nat :=
  port_index * 16 + (status_byte &&& 0x0F)

/-- The event classification, from the inner
`match status_byte & 0xF0 { 0x90 if data2 > 0 => NoteOn, 0x80 | 0x90 => NoteOff, _ => None }`
of the listener loop in `audio.rs`.  Match arms are tried in source order. -/
def classify (status_byte data1 data2 : Nat) : Option ChannelAudioEvent :=
  if status_byte &&& 0xF0 = 0x90 ∧ 0 < data2 then
    some (.NoteOn data1 data2)
  else if status_byte &&& 0xF0 = 0x80 ∨ status_byte &&& 0xF0 = 0x90 then
    some (.NoteOff data1)
  else
    none

/-- The complete per-packet mapping of the listener loop in `audio.rs`:
status-range guard (`status_byte >= 0x80 && status_byte < 0xF0`), then the
channel-bound guard (`if target_channel >= config.total_channels { continue }`),
then classification; the result is the event addressed to the target
channel, or nothing. -/
def map_packet (cfg : RealtimeConfig) (port_index status_byte data1 data2 : Nat) :
    Option (Nat × ChannelAudioEvent) :=
  if 0x80 ≤ status_byte ∧ status_byte < 0xF0 then
    let target := target_channel port_index status_byte
    if cfg.total_channels ≤ target then
      none
    else
      match classify status_byte data1 data2 with
      | some e => some (target, e)
      | none => none
  else
    none

/-- One received datagram end to end: decode, then map.  A datagram whose
size is not 4 produces nothing. -/
def handle_datagram (cfg : RealtimeConfig) (buf : List Nat) :
    Option (Nat × ChannelAudioEvent) :=
  match decode buf with
  | some (p, s, d1, d2) => map_packet cfg p s d1 d2
  | none => none

/-! ### Load progress -/

/-- The progress value written after the `i`-th soundfont load attempt
completes, from `audio.rs`:
`*p = 0.05 + (0.90 * ((i + 1) as f32 / total_sfs as f32))` (there `i` is the
0-based loop index; here `i` is the 1-based count of completed attempts). -/
def bank_progress (total_sfs i : Nat) : ℚ :=
  0.05 + 0.90 * ((i : ℚ) / (total_sfs : ℚ))

/-- The sequence of progress writes of the soundfont-loading loop in
`audio.rs`, one write per bank path whether its load succeeded or failed. -/
def bank_writes (total_sfs : Nat) : List ℚ :=
  (List.range total_sfs).map (fun i => bank_progress total_sfs (i + 1))

/-- All progress writes performed by the worker thread of
`spawn_audio_thread`, in order: `0.05` right after the thread starts, the
per-bank writes (or a single `0.95` when the bank list is empty, from the
`else` branch `*p = 0.95`), and `1.0` right before the receive loop. -/
def worker_progress_writes (total_sfs : Nat) : List ℚ :=
  0.05 :: ((if 0 < total_sfs then bank_writes total_sfs else [0.95]) ++ [1.0])

/-- Modelled from the spec: the GUI helper `restart_engine`, which owns the
shared `load_progress` cell, is called from `ui.rs` but its defining module
is not among the sources under `src/` (the `main.rs` present is an earlier
snapshot that predates the progress cell).  Per the spec, every (re)start
attempt resets the shared progress to `0.0` before any loading work begins,
and a failed start attempt (e.g. the listen port cannot be bound) forces the
progress to `1.0`; a successful bind hands the cell to the worker thread of
`spawn_audio_thread`, whose writes are embedded above from `audio.rs`. -/
def attempt_progress_writes (bind_ok : Bool) (total_sfs : Nat) : List ℚ :=
  0.0 :: (if bind_ok then worker_progress_writes total_sfs else [1.0])

/-! ### Engine lifecycle -/

/-- Outcome of the one fallible step `spawn_audio_thread` performs before
spawning the worker: `UdpSocket::bind(format!("127.0.0.1:{}", port))`. -/
inductive BindOutcome where
  | ok
  | err (oserr : String)
deriving DecidableEq, Repr

/-- The engine handle of `audio.rs`
(`AudioEngineHandle { is_running, thread_handle }`); the joinable thread
handle is opaque. -/
structure AudioEngineHandle where
  is_running : Bool
  thread_handle : Option Unit
deriving DecidableEq, Repr

/-- The control skeleton of `spawn_audio_thread` in `audio.rs`: a failed
bind is mapped (`map_err`) to the descriptive message
`"无法绑定 UDP 端口 {port}: {oserr}"` and returned with `?` before any thread
is spawned; a successful bind spawns the worker and returns the running
handle. -/
def spawn_audio_thread (cfg : RealtimeConfig) (bind : BindOutcome) :
    Except String AudioEngineHandle :=
  match bind with
  | .err e =>
      .error ("无法绑定 UDP 端口 " ++ toString cfg.udp_port ++ ": " ++ e)
  | .ok => .ok { is_running := true, thread_handle := some () }

/-- Result of one `SampleSoundfont::new` call in the loading loop of
`audio.rs`, abstracted: a loaded soundfont (opaque id) or an error
message. -/
inductive LoadResult where
  | ok (sf : Nat)
  | err (msg : String)
deriving DecidableEq, Repr

/-- The `loaded_sfs` accumulation of `audio.rs`: successes are pushed in
order, failures are logged (`eprintln!`) and skipped. -/
def loaded_sfs (loads : List LoadResult) : List Nat :=
  loads.filterMap fun r =>
    match r with
    | .ok sf => some sf
    | .err _ => none

/-- The `SetSoundfonts` configuration events sent after loading, from
`audio.rs`: `if !loaded_sfs.is_empty()`, one event per channel
`0 .. total_channels - 1`, each carrying the whole accumulated list;
otherwise only a warning is printed and no event is sent. -/
def assignment_events (total_channels : Nat) (loaded : List Nat) :
    List (Nat × List Nat) :=
  if loaded.isEmpty then []
  else (List.range total_channels).map fun ch => (ch, loaded)

/-- Summary of the worker thread's loading stage in `spawn_audio_thread`:
the merged soundfont list, the configuration events sent, and whether the
thread proceeds into the receive loop (in the source it always does —
there is no early return between loading and the loop). -/
structure WorkerStartOutcome where
  loaded : List Nat
  config_events : List (Nat × List Nat)
  enters_receive_loop : Bool
deriving DecidableEq, Repr

/-- The loading stage of the worker thread, from `audio.rs`. -/
def worker_start (cfg : RealtimeConfig) (loads : List LoadResult) :
    WorkerStartOutcome :=
  { loaded := loaded_sfs loads
    config_events := assignment_events cfg.total_channels (loaded_sfs loads)
    enters_receive_loop := true }

/-- Effects of one `AudioEngineHandle::stop` call: whether the cancellation
flag was written, and whether the caller blocked joining the worker. -/
structure StopEffect where
  signalled : Bool
  joined : Bool
deriving DecidableEq, Repr

/-- Function `AudioEngineHandle::stop` from `audio.rs`: the whole body is guarded by
`if self.is_running.load(..)`; inside, it stores `false` to the flag and
joins `self.thread_handle.take()` when a handle is present.  Returns the
updated handle together with the effects performed. -/
def stop (h : AudioEngineHandle) : AudioEngineHandle × StopEffect :=
  if h.is_running then
    ({ is_running := false, thread_handle := none },
      { signalled := true, joined := h.thread_handle.isSome })
  else
    (h, { signalled := false, joined := false })

/-- The guard of the worker's receive loop in `audio.rs`:
`while is_running_clone.load(..)` — the loop continues exactly while the
shared flag is `true`, so a worker that observes the cleared flag exits. -/
def receive_loop_continues (flag : Bool) : Bool := flag

/-! ### Driver-side emitter -/

/-- The `modMessage` selectors and return codes from `lib.rs`. -/
def MODM_GETNUMDEVS : Nat := 1
def MODM_GETDEVCAPS : Nat := 2
def MODM_OPEN : Nat := 3
def MODM_CLOSE : Nat := 4
def MODM_PREPARE : Nat := 5
def MODM_UNPREPARE : Nat := 6
def MODM_DATA : Nat := 7
def MODM_LONGDATA : Nat := 8
def MMSYSERR_NOERROR : Nat := 0
def MMSYSERR_NOTSUPPORTED : Nat := 11

/-- The process-wide lazily bound send socket of the driver
(`static SOCKET: Lazy<Mutex<Option<UdpSocket>>>`), abstracted to whether a
socket is currently bound. -/
structure DriverState where
  socket : Option Unit
deriving DecidableEq, Repr

/-- One UDP send performed by the driver (`sock.send_to(&packet, dest)`). -/
structure Emission where
  dest : String
  payload : List Nat
deriving DecidableEq, Repr

/-- Destination of every driver emission, the fixed literal in `lib.rs`:
`sock.send_to(&packet, "127.0.0.1:44444")`. -/
def emitter_dest : String := "127.0.0.1:44444"

/-- The numeric port of `emitter_dest`. -/
def emitter_dest_port : Nat := 44444

/-- The port the engine-side listener binds, from `audio.rs`:
`UdpSocket::bind(format!("127.0.0.1:{}", config.udp_port))`. -/
def listener_bind_port (cfg : RealtimeConfig) : Nat := cfg.udp_port

/-- The address string the engine-side listener binds. -/
def listener_bind_addr (cfg : RealtimeConfig) : String :=
  "127.0.0.1:" ++ toString cfg.udp_port

/-- Function `modMessage` from `lib.rs`, as a state transformer returning the new
driver state, the emissions performed, and the `u32` return value.
`bind_ok` abstracts whether `UdpSocket::bind("127.0.0.1:0")` succeeds in
the `MODM_OPEN` arm (its `.ok()` keeps `None` on failure and the arm still
returns no error).  The `MODM_GETDEVCAPS` capability write-out touches host
memory only and is modelled by its return value alone. -/
def modMessage (st : DriverState) (u_device_id u_msg param1 : Nat)
    (bind_ok : Bool) : DriverState × List Emission × Nat :=
  if u_msg = MODM_GETNUMDEVS then (st, [], 16)
  else if u_msg = MODM_GETDEVCAPS then (st, [], MMSYSERR_NOERROR)
  else if u_msg = MODM_OPEN then
    (⟨if st.socket.isNone then (if bind_ok then some () else none)
      else st.socket⟩, [], MMSYSERR_NOERROR)
  else if u_msg = MODM_DATA then
    match st.socket with
    | some _ =>
        (st,
          [{ dest := "127.0.0.1:44444"
             payload := [u_device_id % 256, param1 &&& 0xFF,
               (param1 >>> 8) &&& 0xFF, (param1 >>> 16) &&& 0xFF] }],
          MMSYSERR_NOERROR)
    | none => (st, [], MMSYSERR_NOERROR)
  else if u_msg = MODM_CLOSE ∨ u_msg = MODM_PREPARE ∨ u_msg = MODM_UNPREPARE
    then (st, [], MMSYSERR_NOERROR)
  else (st, [], MMSYSERR_NOTSUPPORTED)

/-- A sample configuration used by witnesses: the defaults of
`AppSettings::load` (`udp_port: 44444, total_channels: 64,
ignore_velocity_min: 0, ignore_velocity_max: 0`). -/
def defaultCfg : RealtimeConfig :=
  { udp_port := 44444, total_channels := 64
    ignore_velocity_min := 0, ignore_velocity_max := 0 }

end XXSynth

namespace XXSynth

/-- C2: For every received packet: a status byte outside `[0x80, 0xF0)`
produces no event; classification by the high nibble of the status byte
sends `0x90` with `data2 > 0` to `NoteOn{key: data1, velocity: data2}`,
sends `0x80` (any `data2`) and `0x90` with `data2 = 0` to the same
`NoteOff{key: data1}`, and sends every other high nibble to no event. -/
theorem c2_classification
    (cfg : RealtimeConfig) (port_index status_byte data1 data2 : Nat) :
    (¬ (0x80 ≤ status_byte ∧ status_byte < 0xF0) →
        map_packet cfg port_index status_byte data1 data2 = none) ∧
    (status_byte &&& 0xF0 = 0x90 → 0 < data2 →
        classify status_byte data1 data2 = some (.NoteOn data1 data2)) ∧
    (status_byte &&& 0xF0 = 0x80 →
        classify status_byte data1 data2 = some (.NoteOff data1)) ∧
    (status_byte &&& 0xF0 = 0x90 → data2 = 0 →
        classify status_byte data1 data2 = some (.NoteOff data1)) ∧
    (status_byte &&& 0xF0 ≠ 0x80 → status_byte &&& 0xF0 ≠ 0x90 →
        classify status_byte data1 data2 = none) := by
  refine ⟨fun h => ?_, fun h9 hv => ?_, fun h8 => ?_, fun h9 hz => ?_,
    fun h8 h9 => ?_⟩
  · unfold map_packet
    rw [if_neg h]
  · unfold classify
    rw [if_pos ⟨h9, hv⟩]
  · unfold classify
    rw [if_neg (by simp [h8]), if_pos (Or.inl h8)]
  · unfold classify
    rw [if_neg (by simp [hz]), if_pos (Or.inr h9)]
  · unfold classify
    rw [if_neg (by simp [h9]), if_neg (by simp [h8, h9])]

/-- Witness for C2: out-of-range status `0x70` is dropped; `0x95`/`vel 100`
is a NoteOn; `0x83` is a NoteOff; `0x92`/`vel 0` is the same NoteOff; the
control-change nibble `0xB0` yields nothing. -/
theorem c2_witness :
    map_packet defaultCfg 0 0x70 10 20 = none ∧
    classify 0x95 60 100 = some (.NoteOn 60 100) ∧
    classify 0x83 60 5 = some (.NoteOff 60) ∧
    classify 0x92 60 0 = some (.NoteOff 60) ∧
    classify 0xB3 1 2 = none :=
  ⟨(c2_classification defaultCfg 0 0x70 10 20).1 (by decide),
    (c2_classification defaultCfg 0 0x95 60 100).2.1 (by decide) (by decide),
    (c2_classification defaultCfg 0 0x83 60 5).2.2.1 (by decide),
    (c2_classification defaultCfg 0 0x92 60 0).2.2.2.1 (by decide) (by decide),
    (c2_classification defaultCfg 0 0xB3 1 2).2.2.2.2 (by decide) (by decide)⟩

/-- C3: Decoding a datagram whose length is not 4 yields nothing (and the
end-to-end handler produces no event from it); any 4-byte datagram decodes to
some quadruple; and decoding inverts the emitter's encoding on byte values:
`decode (encode a b c d) = some (a, b, c, d)`. -/
theorem c3_codec_roundtrip (cfg : RealtimeConfig) (buf : List Nat)
    (a b c d : Nat) (ha : a < 256) (hb : b < 256) (hc : c < 256)
    (hd : d < 256) :
    (buf.length ≠ 4 → decode buf = none ∧ handle_datagram cfg buf = none) ∧
    (buf.length = 4 → (decode buf).isSome) ∧
    decode (encode a b c d) = some (a, b, c, d) := by
  refine ⟨fun hlen => ?_, fun hlen => ?_, ?_⟩
  · have hnone : decode buf = none := by
      match buf, hlen with
      | [], _ => rfl
      | [_], _ => rfl
      | [_, _], _ => rfl
      | [_, _, _], _ => rfl
      | [_, _, _, _], h => exact absurd rfl h
      | _ :: _ :: _ :: _ :: _ :: _, _ => rfl
    exact ⟨hnone, by unfold handle_datagram; rw [hnone]⟩
  · match buf, hlen with
    | [_, _, _, _], _ => rfl
    | [], h => exact absurd h (by simp)
    | [_], h => exact absurd h (by simp)
    | [_, _], h => exact absurd h (by simp)
    | [_, _, _], h => exact absurd h (by simp)
    | _ :: _ :: _ :: _ :: _ :: l, h =>
        exact absurd h (by simp only [List.length_cons]; omega)
  · unfold encode decode
    rw [Nat.mod_eq_of_lt ha, Nat.mod_eq_of_lt hb, Nat.mod_eq_of_lt hc,
      Nat.mod_eq_of_lt hd]

/-- Witness for C3: a 1-byte datagram decodes to nothing and yields no event;
a concrete 4-byte datagram decodes; `encode`/`decode` round-trips on
`(3, 0x90, 60, 100)`. -/
theorem c3_witness :
    (decode [9] = none ∧ handle_datagram defaultCfg [9] = none) ∧
    (decode [3, 0x90, 60, 100]).isSome ∧
    decode (encode 3 0x90 60 100) = some (3, 0x90, 60, 100) :=
  ⟨(c3_codec_roundtrip defaultCfg [9] 3 0x90 60 100 (by decide) (by decide)
      (by decide) (by decide)).1 (by decide),
    (c3_codec_roundtrip defaultCfg [3, 0x90, 60, 100] 3 0x90 60 100
      (by decide) (by decide) (by decide) (by decide)).2.1 (by decide),
    (c3_codec_roundtrip defaultCfg [9] 3 0x90 60 100 (by decide) (by decide)
      (by decide) (by decide)).2.2⟩

/-- C1: For a packet whose status byte lies in `[0x80, 0xF0)`, the listener
computes the flat target channel `port_index * 16 + (status_byte & 0x0F)`;
whenever that target is `≥ total_channels`, no event is forwarded (the packet
is dropped without error). -/
theorem c1_out_of_range_channel_dropped
    (cfg : RealtimeConfig) (port_index status_byte data1 data2 : Nat)
    (hlo : 0x80 ≤ status_byte) (hhi : status_byte < 0xF0)
    (hbound : cfg.total_channels ≤ port_index * 16 + (status_byte &&& 0x0F)) :
    map_packet cfg port_index status_byte data1 data2 = none := by
  unfold map_packet target_channel
  rw [if_pos ⟨hlo, hhi⟩, if_pos hbound]

/-- Witness for C1: with the default 64-channel configuration, the packet
`[4, 0x90, 60, 100]` targets flat channel `64 ≥ 64` and is dropped. -/
theorem c1_witness :
    0x80 ≤ 0x90 ∧ 0x90 < 0xF0 ∧
      defaultCfg.total_channels ≤ 4 * 16 + (0x90 &&& 0x0F) ∧
      map_packet defaultCfg 4 0x90 60 100 = none :=
  ⟨by decide, by decide, by decide,
    c1_out_of_range_channel_dropped defaultCfg 4 0x90 60 100
      (by decide) (by decide) (by decide)⟩

/-! ### Helper lemmas about the progress writes -/

theorem bank_progress_mono (n : Nat) {i j : Nat} (hij : i ≤ j) :
    bank_progress n i ≤ bank_progress n j := by
  unfold bank_progress
  rcases Nat.eq_zero_or_pos n with hn | hn
  · subst hn
    norm_num
  · have hn' : (0 : ℚ) < (n : ℚ) := by exact_mod_cast hn
    have hij' : (i : ℚ) ≤ (j : ℚ) := by exact_mod_cast hij
    gcongr

theorem bank_progress_zero (n : Nat) : bank_progress n 0 = 0.05 := by
  unfold bank_progress
  norm_num

theorem bank_progress_full (n : Nat) (hn : 0 < n) :
    bank_progress n n = 0.95 := by
  unfold bank_progress
  rw [div_self (by exact_mod_cast hn.ne')]
  norm_num

theorem bank_writes_getElem? (n i : Nat) (h : i < n) :
    (bank_writes n)[i]? = some (bank_progress n (i + 1)) := by
  simp [bank_writes, h]

theorem bank_writes_chain' (n : Nat) :
    List.Chain' (· ≤ ·) (bank_writes n) := by
  unfold bank_writes
  rw [List.chain'_map]
  cases n with
  | zero => simp
  | succ m =>
      rw [List.chain'_range_succ]
      intro k _
      exact bank_progress_mono _ (by omega)

theorem bank_writes_ne_nil (n : Nat) (hn : 0 < n) : bank_writes n ≠ [] := by
  unfold bank_writes
  simp [List.range_eq_nil, hn.ne']

theorem bank_writes_head? (n : Nat) (hn : 0 < n) :
    (bank_writes n).head? = some (bank_progress n 1) := by
  obtain ⟨m, rfl⟩ := Nat.exists_eq_add_of_lt hn
  simp only [Nat.zero_add] at *
  unfold bank_writes
  rw [List.range_succ_eq_map]
  rfl

theorem bank_writes_getLast? (n : Nat) (hn : 0 < n) :
    (bank_writes n).getLast? = some (bank_progress n n) := by
  obtain ⟨m, rfl⟩ := Nat.exists_eq_add_of_lt hn
  simp only [Nat.zero_add] at *
  unfold bank_writes
  rw [List.range_succ, List.map_append,
    List.getLast?_append_of_ne_nil _ (by simp)]
  rfl

theorem worker_writes_chain' (n : Nat) :
    List.Chain' (· ≤ ·) (worker_progress_writes n) := by
  unfold worker_progress_writes
  rcases Nat.eq_zero_or_pos n with hn | hn
  · subst hn
    rw [if_neg (by omega)]
    refine List.chain'_cons.mpr ⟨by norm_num, ?_⟩
    exact List.chain'_cons.mpr ⟨by norm_num, List.chain'_singleton _⟩
  · rw [if_pos hn, ← List.cons_append]
    refine List.Chain'.append ?_ (List.chain'_singleton _) ?_
    · refine List.chain'_cons'.mpr ⟨?_, bank_writes_chain' n⟩
      intro y hy
      rw [bank_writes_head? n hn, Option.mem_some_iff] at hy
      subst hy
      calc (0.05 : ℚ) = bank_progress n 0 := (bank_progress_zero n).symm
        _ ≤ bank_progress n 1 := bank_progress_mono n (by omega)
    · intro x hx y hy
      rw [← List.singleton_append,
        List.getLast?_append_of_ne_nil _ (bank_writes_ne_nil n hn),
        bank_writes_getLast? n hn, Option.mem_some_iff] at hx
      rw [List.head?_cons, Option.mem_some_iff] at hy
      subst hx
      subst hy
      rw [bank_progress_full n hn]
      norm_num

theorem worker_writes_ne_nil (n : Nat) : worker_progress_writes n ≠ [] := by
  unfold worker_progress_writes
  simp

theorem worker_writes_getLast? (n : Nat) :
    (worker_progress_writes n).getLast? = some 1.0 := by
  unfold worker_progress_writes
  rw [← List.cons_append, List.getLast?_append_of_ne_nil _ (by simp)]
  rfl

/-- C4: For every engine (re)start attempt, the shared load progress is
reset to `0.0` at the start of the attempt before any loading work begins,
and its last written value is `1.0` whether the attempt succeeds or fails
(on a failed bind the write sequence is exactly `[0.0, 1.0]`), so the
progress never remains below `1.0` after the attempt concludes. -/
theorem c4_progress_reset_and_completion (bind_ok : Bool) (total_sfs : Nat) :
    (attempt_progress_writes bind_ok total_sfs).head? = some 0.0 ∧
    (attempt_progress_writes bind_ok total_sfs).getLast? = some 1.0 ∧
    attempt_progress_writes false total_sfs = [0.0, 1.0] := by
  refine ⟨rfl, ?_, rfl⟩
  unfold attempt_progress_writes
  cases bind_ok
  · rfl
  · rw [if_pos rfl, ← List.singleton_append,
      List.getLast?_append_of_ne_nil _ (worker_writes_ne_nil total_sfs)]
    exact worker_writes_getLast? total_sfs

/-- C5: Within one start attempt the worker's progress writes follow the
5%/90%/5% allocation and never decrease: the write sequence is a
`≤`-chain starting at `0.05`; the `i`-th of `n` bank completions writes
`0.05 + 0.90 * (i / n)`, which is `0.95` for the last bank; an empty bank
list gives the sequence `[0.05, 0.95, 1.0]`; and the final write is `1.0`
when the receive loop is entered. -/
theorem c5_progress_allocation (total_sfs : Nat) :
    List.Chain' (· ≤ ·) (worker_progress_writes total_sfs) ∧
    (worker_progress_writes total_sfs).head? = some 0.05 ∧
    (∀ i, 1 ≤ i → i ≤ total_sfs →
      (bank_writes total_sfs)[i - 1]? =
        some (0.05 + 0.90 * ((i : ℚ) / (total_sfs : ℚ)))) ∧
    (0 < total_sfs → bank_progress total_sfs total_sfs = 0.95) ∧
    worker_progress_writes 0 = [0.05, 0.95, 1.0] ∧
    (worker_progress_writes total_sfs).getLast? = some 1.0 := by
  refine ⟨worker_writes_chain' _, rfl, ?_,
    fun hn => bank_progress_full _ hn, rfl, worker_writes_getLast? _⟩
  intro i h1 hn
  rw [bank_writes_getElem? _ _ (by omega)]
  have hi : i - 1 + 1 = i := by omega
  rw [hi]
  rfl

/-- Witness for C5: with two banks, the first completion writes
`0.05 + 0.90 * (1/2)` and the second reaches `0.95`. -/
theorem c5_witness :
    (bank_writes 2)[0]? = some (0.05 + 0.90 * ((1 : ℚ) / (2 : ℚ))) ∧
    bank_progress 2 2 = 0.95 :=
  ⟨(c5_progress_allocation 2).2.2.1 1 (by norm_num) (by norm_num),
    (c5_progress_allocation 2).2.2.2.1 (by norm_num)⟩

/-- C6: If the configured UDP listen port cannot be bound, start fails
fast: it returns the descriptive error naming the port (no panic), produces
no handle and spawns no worker thread, and a later start call whose bind
succeeds still returns a running handle (the controller can be asked to
start again). -/
theorem c6_bind_failure_fails_fast (cfg : RealtimeConfig) (e : String) :
    spawn_audio_thread cfg (.err e) =
      .error ("无法绑定 UDP 端口 " ++ toString cfg.udp_port ++ ": " ++ e) ∧
    (∀ h : AudioEngineHandle, spawn_audio_thread cfg (.err e) ≠ .ok h) ∧
    (∃ h : AudioEngineHandle,
      spawn_audio_thread cfg .ok = .ok h ∧ h.is_running = true) := by
  refine ⟨rfl, fun h hcontra => ?_, ⟨_, rfl, rfl⟩⟩
  exact Except.noConfusion hcontra

/-- Witness for C6: under the default configuration, a bind failure with a
concrete OS error yields exactly the descriptive error naming port 44444
and is not a running handle. -/
theorem c6_witness :
    spawn_audio_thread defaultCfg (.err "address in use") =
      .error ("无法绑定 UDP 端口 " ++ toString defaultCfg.udp_port ++ ": " ++
        "address in use") ∧
    spawn_audio_thread defaultCfg (.err "address in use") ≠
      .ok { is_running := true, thread_handle := some () } :=
  ⟨(c6_bind_failure_fails_fast defaultCfg "address in use").1,
    (c6_bind_failure_fails_fast defaultCfg "address in use").2.1
      { is_running := true, thread_handle := some () }⟩

/-- C7: A load failure of one bank is skipped without aborting the
attempt (removing a failed entry leaves the accumulated set unchanged); the
worker always proceeds to the receive loop; if at least one bank loaded,
channel `ch` receives the whole merged list for every
`ch < total_channels`, and exactly those channels are configured; if zero
banks loaded, no configuration event is sent yet the loop is still
entered. -/
theorem c7_partial_load_not_fatal (cfg : RealtimeConfig)
    (xs ys : List LoadResult) (m : String) (loads : List LoadResult) :
    loaded_sfs (xs ++ .err m :: ys) = loaded_sfs (xs ++ ys) ∧
    (worker_start cfg loads).enters_receive_loop = true ∧
    (loaded_sfs loads ≠ [] →
      (∀ ch, ch < cfg.total_channels →
        ((worker_start cfg loads).config_events)[ch]? =
          some (ch, loaded_sfs loads)) ∧
      (worker_start cfg loads).config_events.length = cfg.total_channels) ∧
    (loaded_sfs loads = [] →
      (worker_start cfg loads).config_events = []) := by
  refine ⟨?_, rfl, fun hne => ⟨fun ch hch => ?_, ?_⟩, fun he => ?_⟩
  · simp [loaded_sfs]
  · simp [worker_start, assignment_events, List.isEmpty_iff, hne, hch]
  · simp [worker_start, assignment_events, List.isEmpty_iff, hne]
  · simp [worker_start, assignment_events, he]

/-- Witness for C7: with loads `[ok 7, err "bad", ok 9]` under the default
64-channel configuration, channel 5 is assigned the merged list `[7, 9]`
and the receive loop is entered; with the single load `[err "bad"]` no
configuration event is sent yet the loop is still entered. -/
theorem c7_witness :
    ((worker_start defaultCfg [.ok 7, .err "bad", .ok 9]).config_events)[5]? =
      some (5, loaded_sfs [.ok 7, .err "bad", .ok 9]) ∧
    (worker_start defaultCfg [.ok 7, .err "bad", .ok 9]).config_events.length =
      defaultCfg.total_channels ∧
    (worker_start defaultCfg [.err "bad"]).config_events = [] ∧
    (worker_start defaultCfg [.err "bad"]).enters_receive_loop = true :=
  ⟨((c7_partial_load_not_fatal defaultCfg [] [] "x"
        [.ok 7, .err "bad", .ok 9]).2.2.1 (by decide)).1 5 (by decide),
    ((c7_partial_load_not_fatal defaultCfg [] [] "x"
        [.ok 7, .err "bad", .ok 9]).2.2.1 (by decide)).2,
    (c7_partial_load_not_fatal defaultCfg [] [] "x"
        [.err "bad"]).2.2.2 (by decide),
    (c7_partial_load_not_fatal defaultCfg [] [] "x" [.err "bad"]).2.1⟩

/-- C8: `stop` is idempotent: on an already-stopped handle it is a no-op
that neither signals nor blocks on a join, and a second `stop` after any
`stop` is such a no-op; on a running handle it clears the flag, takes the
thread handle, joins it exactly when one was present, and afterwards the
receive-loop guard fails, so no worker of this instance keeps running. -/
theorem c8_stop_idempotent (h : AudioEngineHandle) :
    (h.is_running = false →
      stop h = (h, { signalled := false, joined := false })) ∧
    stop (stop h).1 = ((stop h).1, { signalled := false, joined := false }) ∧
    (h.is_running = true →
      (stop h).1.is_running = false ∧
      (stop h).1.thread_handle = none ∧
      (stop h).2.joined = h.thread_handle.isSome ∧
      receive_loop_continues (stop h).1.is_running = false) := by
  obtain ⟨ir, th⟩ := h
  cases ir <;> simp [stop, receive_loop_continues]

/-- Witness for C8: stopping an already-stopped handle changes nothing and
joins nothing; stopping a running handle with a live thread clears the flag
and joins it, and the loop guard then fails. -/
theorem c8_witness :
    stop { is_running := false, thread_handle := some () } =
      ({ is_running := false, thread_handle := some () },
        { signalled := false, joined := false }) ∧
    (stop { is_running := true, thread_handle := some () }).1.is_running =
      false ∧
    (stop { is_running := true, thread_handle := some () }).2.joined =
      (some ()).isSome ∧
    receive_loop_continues
      (stop { is_running := true, thread_handle := some () }).1.is_running =
      false :=
  ⟨(c8_stop_idempotent _).1 rfl,
    ((c8_stop_idempotent _).2.2 rfl).1,
    ((c8_stop_idempotent _).2.2 rfl).2.2.1,
    ((c8_stop_idempotent _).2.2 rfl).2.2.2⟩

/-- C9 counterexample: The claim "the destination port the emitter sends
to is the same configured port the engine-side listener binds" fails: with
the listen port configured to 45555 (a value the settings UI allows), the
listener binds port 45555 while a driver emission still goes to the
hard-coded `127.0.0.1:44444`. -/
theorem c9_counterexample :
    listener_bind_port
        { udp_port := 45555, total_channels := 64
          ignore_velocity_min := 0, ignore_velocity_max := 0 } ≠
      emitter_dest_port ∧
    (modMessage ⟨some ()⟩ 0 MODM_DATA 0x3C90 true).2.1.map Emission.dest =
      [emitter_dest] := by
  exact ⟨by decide, rfl⟩

/-- C9 amended: Every packet emitted by the driver is a 4-byte payload
`[port_index, status_byte, data1, data2]` sent over loopback UDP to the
fixed destination `127.0.0.1:44444`; this coincides with the address the
engine-side listener binds exactly when the configured port is the default
44444 (in particular for the default configuration). -/
theorem c9_fixed_destination (st : DriverState) (u_device_id param1 : Nat)
    (b : Bool) (cfg : RealtimeConfig) (hsock : st.socket = some ())
    (hport : cfg.udp_port = 44444) :
    (∀ em ∈ (modMessage st u_device_id MODM_DATA param1 b).2.1,
      em.dest = emitter_dest ∧
      em.payload = [u_device_id % 256, param1 &&& 0xFF,
        (param1 >>> 8) &&& 0xFF, (param1 >>> 16) &&& 0xFF] ∧
      em.payload.length = 4) ∧
    listener_bind_addr cfg = emitter_dest ∧
    listener_bind_port defaultCfg = emitter_dest_port := by
  refine ⟨fun em hem => ?_, ?_, rfl⟩
  · simp only [modMessage, MODM_DATA, MODM_GETNUMDEVS, MODM_GETDEVCAPS,
      MODM_OPEN, hsock] at hem
    norm_num at hem
    subst hem
    exact ⟨rfl, rfl, rfl⟩
  · simp only [listener_bind_addr, hport, emitter_dest]
    rfl

/-- Witness for C9 (amended): a concrete emission from a bound driver
socket for the note-on message `0x3C90` on device 2 carries the packet
`[2, 0x90, 0x3C, 0]` to `127.0.0.1:44444`, which the default configuration
listens on. -/
theorem c9_witness :
    ((⟨some ()⟩ : DriverState).socket = some ()) ∧
    defaultCfg.udp_port = 44444 ∧
    (∀ em ∈ (modMessage ⟨some ()⟩ 2 MODM_DATA 0x3C90 true).2.1,
      em.dest = emitter_dest ∧
      em.payload = [2 % 256, 0x3C90 &&& 0xFF,
        (0x3C90 >>> 8) &&& 0xFF, (0x3C90 >>> 16) &&& 0xFF] ∧
      em.payload.length = 4) ∧
    listener_bind_addr defaultCfg = emitter_dest :=
  ⟨rfl, rfl,
    (c9_fixed_destination ⟨some ()⟩ 2 0x3C90 true defaultCfg rfl rfl).1,
    (c9_fixed_destination ⟨some ()⟩ 2 0x3C90 true defaultCfg rfl rfl).2.1⟩

/-- C10: The driver-side emitter performs no MIDI validation: with the
shared socket bound, every `MODM_DATA` callback emits exactly one 4-byte
packet `[device_id, low byte, second byte, third byte]` of the message
DWORD for every value of the DWORD (including status bytes outside
`[0x80, 0xF0)`); before any successful open the socket is unbound and
`MODM_DATA` emits nothing yet still returns `MMSYSERR_NOERROR`; and a
successful `MODM_OPEN` on an unbound socket binds it. -/
theorem c10_emitter_no_validation (st : DriverState)
    (u_device_id param1 : Nat) (b : Bool) :
    (st.socket = none →
      modMessage st u_device_id MODM_DATA param1 b =
        (st, [], MMSYSERR_NOERROR)) ∧
    (st.socket = some () →
      modMessage st u_device_id MODM_DATA param1 b =
        (st, [{ dest := "127.0.0.1:44444"
                payload := [u_device_id % 256, param1 &&& 0xFF,
                  (param1 >>> 8) &&& 0xFF, (param1 >>> 16) &&& 0xFF] }],
          MMSYSERR_NOERROR)) ∧
    modMessage ⟨none⟩ u_device_id MODM_OPEN param1 true =
      (⟨some ()⟩, [], MMSYSERR_NOERROR) := by
  refine ⟨fun hnone => ?_, fun hsome => ?_, ?_⟩
  · simp [modMessage, MODM_GETNUMDEVS, MODM_GETDEVCAPS, MODM_OPEN,
      MODM_DATA, hnone]
  · simp [modMessage, MODM_GETNUMDEVS, MODM_GETDEVCAPS, MODM_OPEN,
      MODM_DATA, hsome]
  · simp [modMessage, MODM_GETNUMDEVS, MODM_GETDEVCAPS, MODM_OPEN,
      Option.isNone]

/-- Witness for C10: before open, the data callback for the (non-channel)
status `0x55` emits nothing and reports no error; after open, the same
callback emits exactly the packet `[3, 0x55, 0x7F, 0x01]` even though
`0x55` is outside `[0x80, 0xF0)`. -/
theorem c10_witness :
    modMessage ⟨none⟩ 3 MODM_DATA 0x017F55 true =
      (⟨none⟩, [], MMSYSERR_NOERROR) ∧
    modMessage ⟨some ()⟩ 3 MODM_DATA 0x017F55 true =
      (⟨some ()⟩,
        [{ dest := "127.0.0.1:44444"
           payload := [3 % 256, 0x017F55 &&& 0xFF,
             (0x017F55 >>> 8) &&& 0xFF, (0x017F55 >>> 16) &&& 0xFF] }],
        MMSYSERR_NOERROR) :=
  ⟨(c10_emitter_no_validation ⟨none⟩ 3 0x017F55 true).1 rfl,
    (c10_emitter_no_validation ⟨some ()⟩ 3 0x017F55 true).2.1 rfl⟩

end XXSynth
